import Mathlib

/-!
Shallow embedding of the `ai-policy` RAG backend (src/metrics.py, src/rag_query.py,
src/rag_index.py, src/policy_agent.py, src/policy_prompt.py, src/models.py) and
verification of the frozen claims about it.

Conventions of the embedding:
* Python floats are modelled as exact rationals (`ℚ`); all scores in the code are
  small ratios and fixed decimal literals.
* Python `str.lower().split()` is modelled by `pyWords` (lower-case, split on
  whitespace, drop empty pieces); Python `set(...)` of words becomes a `Finset String`.
* External collaborators (the language model, the ragas evaluation library) are
  black boxes that may fail; they are passed in as explicit parameters of type
  `Except Unit _` / `Option _`.
-/

namespace AIPolicy

/-- Python `s.lower().split()`: lower-case each character, split on whitespace, and
drop the empty pieces (Python `split()` with no argument ignores leading, trailing
and repeated whitespace). -/
def pyWords (s : String) : List String :=
  (((s.toList.map Char.toLower).splitOnP Char.isWhitespace).map
    (fun w => String.mk w)).filter (fun w => w ≠ "")

/-- Python `set(s.lower().split())`. -/
def wordSet (s : String) : Finset String :=
  (pyWords s).toFinset

/-- Embedding of `RAGASMetricsCollector._calculate_context_precision` (src/metrics.py:182-198):
returns 0.0 on empty contexts, otherwise counts the contexts whose word-set overlap
with the query reaches `len(query_words) * 0.3` and divides by the number of contexts. -/
def calculateContextPrecision (query : String) (contexts : List String) : ℚ :=
  if contexts = [] then 0
  else
    let queryWords := wordSet query
    let relevantContexts : ℕ := contexts.foldl
      (fun acc context =>
        let contextWords := wordSet context
        let overlap := (queryWords ∩ contextWords).card
        if (queryWords.card : ℚ) * (3 / 10) ≤ (overlap : ℚ) then acc + 1 else acc) 0
    (relevantContexts : ℚ) / (contexts.length : ℚ)

/-- Embedding of `RAGASMetricsCollector._calculate_context_recall` (src/metrics.py:200-213):
returns 0.0 on empty contexts, otherwise the fraction of distinct query terms found in
the union of all context word sets (0.0 when the query has no words). -/
def calculateContextRecall (query : String) (contexts : List String) : ℚ :=
  if contexts = [] then 0
  else
    let queryWords := wordSet query
    let allContextWords : Finset String :=
      contexts.foldl (fun acc context => acc ∪ wordSet context) ∅
    let coveredTerms := (queryWords ∩ allContextWords).card
    if queryWords ≠ ∅ then (coveredTerms : ℚ) / (queryWords.card : ℚ) else 0

/-- A conversation turn as passed to the rewriter: `{"role": ..., "content": ...}`
(src/models.py `ChatMessage`, serialized by `main.py` via `m.dict()`). -/
structure ChatTurn where
  role : String
  content : String
deriving DecidableEq, Repr

/-- Embedding of `rewrite_question_with_history` (src/rag_query.py:39-50).  `none` models passing
`history=None`; `if not history` catches both `None` and the empty list.  From the last
6 turns it keeps those with role `user`/`assistant` and non-empty content, renders them
as `"role: content"`, joins with `" | "` and puts the block in front of the question. -/
def rewriteQuestionWithHistory (question : String) (history : Option (List ChatTurn)) :
    String :=
  match history with
  | none => question
  | some h =>
    if h = [] then question
    else
      let recentTurns := (h.drop (h.length - 6)).filterMap (fun msg =>
        if (msg.role = "user" ∨ msg.role = "assistant") ∧ msg.content ≠ "" then
          some (msg.role ++ ": " ++ msg.content)
        else none)
      let historyHint := String.intercalate " | " recentTurns
      "[Follow-up based on: " ++ historyHint ++ "] " ++ question

/-- The outcome of the branch taken by `build_or_load_index` (src/rag_index.py:36-40). -/
inductive IndexAction where
  | load
  | build
deriving DecidableEq, Repr

/-- Python `os.getenv("FORCE_REBUILD", "0").lower() in {"1", "true", "yes"}`
(src/rag_index.py:33). -/
def envForceParse (v : Option String) : Bool :=
  let s := (v.getD "0").toLower
  s == "1" || s == "true" || s == "yes"

/-- The build-versus-load decision of `build_or_load_index` (src/rag_index.py:29-40):
`force = force_rebuild or env_force`; load exactly when the index directory exists
and `force` is not set. -/
def buildOrLoadIndex (indexDirExists : Bool) (forceRebuild : Bool)
    (forceRebuildEnv : Option String) : IndexAction :=
  let force := forceRebuild || envForceParse forceRebuildEnv
  if indexDirExists && !force then .load else .build

/-- A Python dict of metric name to score, in insertion order (keys are unique in the
code paths we model; lookup takes the first binding). -/
abbrev MetricsDict := List (String × ℚ)

/-- Python `d.get(k, default)` on a metrics dict. -/
def dictGetD (d : MetricsDict) (k : String) (default : ℚ) : ℚ :=
  match d.find? (fun p => p.1 == k) with
  | some p => p.2
  | none => default

/-- The `interpretation` sub-record produced by `_interpret_ragas_scores`. -/
structure Interpretation where
  overall_quality : String
  strengths : List String
  weaknesses : List String
  recommendations : List String
deriving DecidableEq, Repr

/-- Embedding of `RAGASMetricsCollector._get_recommendations` (src/metrics.py:314-333): one
recommendation per metric below 0.6, in the fixed order faithfulness, relevancy,
precision, recall; if none fired, the single "continue current approach" entry. -/
def getRecommendations (m : MetricsDict) : List String :=
  let recommendations :=
    (if dictGetD m "faithfulness" 0 < (0.6 : ℚ) then
      ["Improve answer faithfulness to retrieved context"] else []) ++
    (if dictGetD m "answer_relevancy" 0 < (0.6 : ℚ) then
      ["Improve answer relevancy to the query"] else []) ++
    (if dictGetD m "context_precision" 0 < (0.6 : ℚ) then
      ["Improve context retrieval precision"] else []) ++
    (if dictGetD m "context_recall" 0 < (0.6 : ℚ) then
      ["Improve context retrieval recall"] else [])
  if recommendations = [] then
    ["System performance is good - continue current approach"]
  else recommendations

/-- One `if score >= 0.8: strengths.append / elif score < 0.5: weaknesses.append`
block of `_interpret_ragas_scores`, returning the (strength, weakness) contributions. -/
def strengthWeaknessBlock (score : ℚ) (strongMsg weakMsg : String) :
    List String × List String :=
  if (0.8 : ℚ) ≤ score then ([strongMsg], [])
  else if score < (0.5 : ℚ) then ([], [weakMsg])
  else ([], [])

/-- Embedding of `RAGASMetricsCollector._interpret_ragas_scores` (src/metrics.py:271-312): quality
tier from `ragas_score` (missing keys default to 0), then the four sequential
strength/weakness blocks in source order, then the recommendations. -/
def interpretRagasScores (m : MetricsDict) : Interpretation :=
  let ragasScore := dictGetD m "ragas_score" 0
  let overallQuality :=
    if (0.8 : ℚ) ≤ ragasScore then "Excellent"
    else if (0.6 : ℚ) ≤ ragasScore then "Good"
    else if (0.4 : ℚ) ≤ ragasScore then "Fair"
    else "Poor"
  let b1 := strengthWeaknessBlock (dictGetD m "faithfulness" 0)
    "High faithfulness to context" "Low faithfulness to context"
  let b2 := strengthWeaknessBlock (dictGetD m "answer_relevancy" 0)
    "High answer relevancy" "Low answer relevancy"
  let b3 := strengthWeaknessBlock (dictGetD m "context_precision" 0)
    "High context precision" "Low context precision"
  let b4 := strengthWeaknessBlock (dictGetD m "context_recall" 0)
    "High context recall" "Low context recall"
  { overall_quality := overallQuality
    strengths := b1.1 ++ b2.1 ++ b3.1 ++ b4.1
    weaknesses := b1.2 ++ b2.2 ++ b3.2 ++ b4.2
    recommendations := getRecommendations m }

/-- The all-default metrics dict returned by the `except` branch of `evaluate_with_ragas`
(src/metrics.py:174-180). -/
def defaultRagasMetrics : MetricsDict :=
  [("faithfulness", 0.5), ("answer_relevancy", 0.5), ("context_precision", 0.5),
   ("context_recall", 0.5), ("ragas_score", 0.5)]

/-- Embedding of `RAGASMetricsCollector.evaluate_with_ragas` (src/metrics.py:108-180).  The whole
external interaction inside the `try` — `Dataset.from_dict`, `ragas.evaluate`, and the
pandas/attribute extraction of `faithfulness`/`answer_relevancy` — is modelled as one
fallible parameter `lib`; `Except.error` models any exception raised by it, on which
the `except` branch returns the all-0.5 default dict.  On success the extracted
library metrics (restricted to the two keys the code reads) are extended with the
lexical context metrics and the mean `ragas_score`. -/
def evaluateWithRagas (lib : Except Unit MetricsDict) (query answer : String)
    (contexts : List String) : MetricsDict :=
  match lib with
  | .error _ => defaultRagasMetrics
  | .ok extracted =>
    let metricsDict :=
      extracted.filter (fun p => p.1 == "faithfulness" || p.1 == "answer_relevancy")
    let metricsDict := metricsDict ++
      [("context_precision", calculateContextPrecision query contexts)] ++
      [("context_recall", calculateContextRecall query contexts)]
    if metricsDict = [] then metricsDict
    else metricsDict ++
      [("ragas_score", (metricsDict.map Prod.snd).sum / (metricsDict.length : ℚ))]

/-- A retrieved document as used by the metrics collector and the policy agent:
`page_content` plus a metadata dict. -/
structure RetrievedDoc where
  page_content : String
  metadata : List (String × String)
deriving DecidableEq, Repr

/-- The record built by `RAGASMetricsCollector.collect_rag_metrics`
(src/metrics.py:215-231). -/
structure RagMetricRecord where
  timestamp : String
  query : String
  ragas_metrics : MetricsDict
  num_retrieved_docs : ℕ
  context_length : ℕ
  interpretation : Interpretation
deriving DecidableEq, Repr

/-- Embedding of `RAGASMetricsCollector.collect_rag_metrics` (src/metrics.py:215-231): extracts the
`page_content` of every retrieved doc, runs `evaluate_with_ragas`, and assembles the
full record.  `datetime.now().isoformat()` is passed in as `timestamp`. -/
def collectRagMetrics (lib : Except Unit MetricsDict) (timestamp query answer : String)
    (retrievedDocs : List RetrievedDoc) : RagMetricRecord :=
  let contexts := retrievedDocs.map (·.page_content)
  let ragasMetrics := evaluateWithRagas lib query answer contexts
  { timestamp := timestamp
    query := query
    ragas_metrics := ragasMetrics
    num_retrieved_docs := retrievedDocs.length
    context_length := (contexts.map String.length).sum
    interpretation := interpretRagasScores ragasMetrics }

/-- Parse a run of decimal digits (rejecting the empty run), as Python `int`/`float`
do for each digit group. -/
def parseDigits (l : List Char) : Option ℕ :=
  if l = [] then none
  else if l.all Char.isDigit then
    some (l.foldl (fun n c => 10 * n + (c.toNat - 48)) 0)
  else none

/-- Model of Python `float(s)` on the strings the scoring code feeds it: optional
sign, digits, optional fractional part; `none` models `ValueError`.  (The builtin
accepts more spellings — exponents, `inf` — but the verified theorems only exercise
the failure path, see `RAGASMetricsCollector.new`.) -/
def pyFloat (s : String) : Option ℚ :=
  let t := s.trim
  let (sign, body) : ℚ × String :=
    if t.startsWith "-" then (-1, t.drop 1) else (1, t)
  match body.splitOn "." with
  | [intPart] => (parseDigits intPart.data).map (fun n => sign * n)
  | [intPart, fracPart] =>
    match parseDigits intPart.data, parseDigits fracPart.data with
    | some n, some f =>
      some (sign * ((n : ℚ) + (f : ℚ) / ((10 : ℚ) ^ fracPart.length)))
    | _, _ => none
  | _ => none

/-- Model of Python `int(s)`: optional sign then digits; `none` models `ValueError`. -/
def pyInt (s : String) : Option ℤ :=
  let t := s.trim
  let (sign, body) : ℤ × String :=
    if t.startsWith "-" then (-1, t.drop 1) else (1, t)
  (parseDigits body.data).map (fun n => sign * n)

/-- State of a `RAGASMetricsCollector`.  `__init__` (src/metrics.py:10-11) sets only
`metrics_file`; the `llm` attribute read by the three model-scored methods is never
assigned anywhere in the repository, so attribute lookup raises `AttributeError`.
We model the attribute as an `Option`: `none` means the attribute is absent and any
use of it raises (caught by the surrounding bare `except`). -/
structure RAGASMetricsCollector where
  metrics_file : String
  llm : Option (String → Except Unit String)

/-- Embedding of `RAGASMetricsCollector.__init__` (src/metrics.py:10-11): sets `metrics_file` only;
no code path ever sets `llm`. -/
def RAGASMetricsCollector.new : RAGASMetricsCollector :=
  { metrics_file := "metrics_log.json", llm := none }

/-- The f-string of `calculate_faithfulness_score` (src/metrics.py:15-29). -/
def faithfulnessPrompt (retrievedContext answer : String) : String :=
  "\n        Rate how faithful this answer is to the provided context (1-10 scale):\n        \n        Context: " ++
  retrievedContext ++
  "\n        \n        Answer: " ++ answer ++
  "\n        \n        Instructions:\n        - 1-3: Answer contains information not in context or contradicts context\n        - 4-6: Answer partially faithful but has some unsupported claims\n        - 7-8: Answer mostly faithful with minor deviations\n        - 9-10: Answer completely faithful to context\n        \n        Return only a number from 1-10:\n        "

/-- The f-string of `detect_hallucinations` (src/metrics.py:40-52). -/
def hallucinationPrompt (retrievedContext answer : String) : String :=
  "\n        Check if this answer contains information not supported by the context:\n        \n        Context: " ++
  retrievedContext ++
  "\n        \n        Answer: " ++ answer ++
  "\n        \n        Instructions:\n        - Return 1 if the answer contains information NOT in the context\n        - Return 0 if all information in the answer is supported by the context\n        \n        Return only 1 or 0:\n        "

/-- The f-string of `calculate_answer_accuracy` (src/metrics.py:85-99). -/
def accuracyPrompt (retrievedContext answer : String) : String :=
  "\n        Rate the accuracy of this answer based on the provided context (1-10 scale):\n        \n        Context: " ++
  retrievedContext ++
  "\n        \n        Answer: " ++ answer ++
  "\n        \n        Instructions:\n        - 1-3: Answer is factually incorrect or misleading\n        - 4-6: Answer has some inaccuracies or missing important details\n        - 7-8: Answer is mostly accurate with minor issues\n        - 9-10: Answer is completely accurate and comprehensive\n        \n        Return only a number from 1-10:\n        "

/-- Embedding of `RAGASMetricsCollector.calculate_faithfulness_score` (src/metrics.py:13-36):
inside the `try`, `self.llm.invoke(prompt)` (raises `AttributeError` when `llm` is
absent, or the invocation itself may fail), then `float(response.content.strip())`,
then the clamp `max(1, min(10, score))`; any exception yields the default 5.0. -/
def calculateFaithfulnessScore (c : RAGASMetricsCollector) (answer retrievedContext : String) : ℚ :=
  match c.llm with
  | none => 5
  | some invoke =>
    match invoke (faithfulnessPrompt retrievedContext answer) with
    | .error _ => 5
    | .ok content =>
      match pyFloat content.trim with
      | none => 5
      | some score => max 1 (min 10 score)

/-- Embedding of `RAGASMetricsCollector.detect_hallucinations` (src/metrics.py:38-59):
`bool(int(response.content.strip()))`; any exception yields `False`. -/
def detectHallucinations (c : RAGASMetricsCollector) (answer retrievedContext : String) : Bool :=
  match c.llm with
  | none => false
  | some invoke =>
    match invoke (hallucinationPrompt retrievedContext answer) with
    | .error _ => false
    | .ok content =>
      match pyInt content.trim with
      | none => false
      | some result => result != 0

/-- Embedding of `RAGASMetricsCollector.calculate_answer_accuracy` (src/metrics.py:83-106): same
shape as the faithfulness scorer with its own prompt; any exception yields 5.0. -/
def calculateAnswerAccuracy (c : RAGASMetricsCollector) (answer retrievedContext : String) : ℚ :=
  match c.llm with
  | none => 5
  | some invoke =>
    match invoke (accuracyPrompt retrievedContext answer) with
    | .error _ => 5
    | .ok content =>
      match pyFloat content.trim with
      | none => 5
      | some score => max 1 (min 10 score)

/-- Embedding of `PolicyGenerationRequest` (src/models.py:26-31). -/
structure PolicyGenerationRequest where
  school : String
  country : String
  level : String
  requirements : Option String
  scope : Option (List String)
deriving DecidableEq, Repr

/-- The metadata dict assembled by `generate_policy` (src/policy_agent.py:50-56). -/
structure PolicyMetadata where
  school : String
  country : String
  level : String
  requirements : Option String
  retrieved_sources : List (List (String × String))
deriving DecidableEq, Repr

/-- Embedding of `PolicyGenerationResponse` (src/models.py:33-35). -/
structure PolicyGenerationResponse where
  generated_policy : String
  metadata : PolicyMetadata
deriving DecidableEq, Repr

/-- The `policy_prompt` template of src/policy_prompt.py with its six variables
substituted. -/
def policyPrompt (school country level requirements scope context : String) : String :=
  "You are a legislator and an expert in drafting responsible AI policies for schools.\n\n" ++
  "Details:\n" ++
  "- School/Organization: " ++ school ++ "\n" ++
  "- Country: " ++ country ++ "\n" ++
  "- Level: " ++ level ++ "\n" ++
  "- Requirements: " ++ requirements ++ "\n" ++
  "- Scope: " ++ scope ++ "\n\n" ++
  "Context from similar policies (authoritative sources):\n" ++
  context ++ "\n\n" ++
  "Task:\n" ++
  "1. Draft a comprehensive AI policy **grounded strictly in the provided context**. " ++
  "Every major policy statement must be supported by the retrieved context. " ++
  "Do not invent new rules or policies that are not in the context.\n\n" ++
  "2. If important requirements are missing from the context, acknowledge the gap explicitly " ++
  "and mark them under a section called \x27Additional Recommendations\x27. These should be clearly " ++
  "separated from the context-grounded policy.\n\n" ++
  "3. Present the final output in **structured markdown** with clear sections\n" ++
  "Make the policy clear, practical, and written in professional, legislative style."

/-- Embedding of `generate_policy` (src/policy_agent.py:13-57).  The retriever
(`retriever.get_relevant_documents`) and the language-model chain (`chain.run`, which
fills `policy_prompt` and invokes the model on it) are the two external collaborators,
passed as functions.  `request.requirements or "None specified"` is Python truthiness:
`None` and `""` both fall back.  The fire-and-forget metrics thread does not affect
the returned value and is not modelled here. -/
def generatePolicy (retriever : String → List RetrievedDoc) (llm : String → String)
    (request : PolicyGenerationRequest) : PolicyGenerationResponse :=
  let query := "AI policy for " ++ request.level ++ " schools in " ++ request.country
  let retrievedDocs := retriever query
  let context :=
    String.intercalate "\n\n" (retrievedDocs.map (fun d => d.page_content.take 1200))
  let requirementsArg :=
    match request.requirements with
    | some s => if s = "" then "None specified" else s
    | none => "None specified"
  let scopeArg := String.intercalate ", " (request.scope.getD [])
  let result := llm (policyPrompt request.school request.country request.level
    requirementsArg scopeArg context)
  { generated_policy := result
    metadata :=
      { school := request.school
        country := request.country
        level := request.level
        requirements := request.requirements
        retrieved_sources := retrievedDocs.map (·.metadata) } }

/-- C5: with an empty (or absent) history, `rewrite_question_with_history` returns the
query unchanged. -/
theorem rewrite_identity_on_empty_history (q : String) :
    rewriteQuestionWithHistory q none = q ∧
    rewriteQuestionWithHistory q (some []) = q := by
  constructor <;> rfl

/-- C7: `build_or_load_index` loads the snapshot iff the index directory exists and
neither the `force_rebuild` argument nor the `FORCE_REBUILD` environment override is
set; in every other case it builds. -/
theorem build_or_load_decision (e f : Bool) (v : Option String) :
    (buildOrLoadIndex e f v = .load ↔
      (e = true ∧ f = false ∧ envForceParse v = false)) ∧
    (buildOrLoadIndex e f v = .build ↔
      ¬(e = true ∧ f = false ∧ envForceParse v = false)) := by
  cases hv : envForceParse v <;> cases e <;> cases f <;>
    simp [buildOrLoadIndex, hv]

/-- A fold that adds 1 whenever a predicate holds counts the satisfying elements. -/
lemma foldl_count_if {α : Type} (p : α → Prop) [DecidablePred p] (l : List α) (n : ℕ) :
    l.foldl (fun acc c => if p c then acc + 1 else acc) n =
      n + l.countP (fun c => decide (p c)) := by
  induction l generalizing n with
  | nil => simp
  | cons x xs ih =>
    by_cases hx : p x <;> simp [hx, ih, List.countP_cons] <;> omega

/-- A fold that always adds 1 computes the length. -/
lemma foldl_add_one_length {α : Type} (l : List α) (n : ℕ) :
    l.foldl (fun acc _ => acc + 1) n = n + l.length := by
  induction l generalizing n with
  | nil => simp
  | cons x xs ih => simp [ih]; omega

/-- Membership in the left fold of unions of word sets. -/
lemma mem_foldl_union (contexts : List String) (init : Finset String) (w : String) :
    w ∈ contexts.foldl (fun acc context => acc ∪ wordSet context) init ↔
      w ∈ init ∨ ∃ c ∈ contexts, w ∈ wordSet c := by
  induction contexts generalizing init with
  | nil => simp
  | cons x xs ih => simp [ih, Finset.mem_union]; tauto

/-- The 30%-of-query-terms threshold over ℚ is the integer comparison `3b ≤ 10a`. -/
lemma threshold_iff (a b : ℕ) :
    ((b : ℚ) * (3 / 10) ≤ (a : ℚ)) ↔ 3 * b ≤ 10 * a := by
  rw [show ((b : ℚ) * (3 / 10)) = ((3 * b : ℕ) : ℚ) / 10 by push_cast; ring,
    div_le_iff (by norm_num : (0 : ℚ) < 10),
    show ((a : ℚ) * 10) = ((10 * a : ℕ) : ℚ) by push_cast; ring]
  exact Nat.cast_le

/-- C3: context precision is the fraction of contexts whose word overlap with the
query reaches 30% of the distinct query terms, context recall is the fraction of
distinct query terms appearing in some context, and both are exactly 0 on an empty
context list. -/
theorem context_precision_recall_spec (q : String) (contexts : List String) :
    calculateContextPrecision q contexts =
      (if contexts = [] then 0 else
        ((contexts.countP (fun c =>
          3 * (wordSet q).card ≤ 10 * ((wordSet q) ∩ (wordSet c)).card) : ℕ) : ℚ) /
          (contexts.length : ℚ)) ∧
    calculateContextRecall q contexts =
      (if contexts = [] then 0 else
        (((wordSet q).filter (fun w => ∃ c ∈ contexts, w ∈ wordSet c)).card : ℚ) /
          ((wordSet q).card : ℚ)) := by
  constructor
  · by_cases hc : contexts = []
    · simp [calculateContextPrecision, hc]
    · simp only [calculateContextPrecision, if_neg hc]
      rw [foldl_count_if
        (fun context => ((wordSet q).card : ℚ) * (3 / 10) ≤
          (((wordSet q) ∩ wordSet context).card : ℚ)) contexts 0]
      have hcount : contexts.countP
          (fun c => decide (((wordSet q).card : ℚ) * (3 / 10) ≤
            (((wordSet q) ∩ wordSet c).card : ℚ))) =
          contexts.countP (fun c =>
            decide (3 * (wordSet q).card ≤ 10 * ((wordSet q) ∩ (wordSet c)).card)) :=
        List.countP_congr (fun c _ => by
          simp only [decide_eq_true_eq]
          exact threshold_iff ((wordSet q) ∩ (wordSet c)).card (wordSet q).card)
      rw [hcount]
      simp
  · by_cases hc : contexts = []
    · simp [calculateContextRecall, hc]
    · have hset : wordSet q ∩ contexts.foldl (fun acc context => acc ∪ wordSet context) ∅ =
          (wordSet q).filter (fun w => ∃ c ∈ contexts, w ∈ wordSet c) := by
        ext w
        simp [mem_foldl_union, Finset.mem_filter]
      by_cases hqw : wordSet q = ∅
      · simp [calculateContextRecall, if_neg hc, hqw]
      · simp only [calculateContextRecall, if_neg hc, hset, if_pos hqw, ne_eq,
          hqw, not_false_eq_true, if_true]

/-- C10: with a query whose lowercased split has no words and a non-empty context
list, the degenerate 30% threshold makes every context count as relevant, so
precision is 1.0, while recall falls into its no-query-words branch and is 0.0. -/
theorem empty_query_precision_one_recall_zero (query : String) (contexts : List String)
    (hq : wordSet query = ∅) (hc : contexts ≠ []) :
    calculateContextPrecision query contexts = 1 ∧
    calculateContextRecall query contexts = 0 := by
  have hlen : (contexts.length : ℚ) ≠ 0 := by
    simpa using fun h => hc (List.length_eq_zero.mp h)
  constructor
  · simp only [calculateContextPrecision, if_neg hc, hq, Finset.card_empty,
      Nat.cast_zero, zero_mul, Nat.cast_nonneg, if_true]
    rw [foldl_add_one_length]
    simpa using div_self hlen
  · simp [calculateContextRecall, if_neg hc, hq]

/-- Witness for the C10 theorem: the empty query and a one-element context list. -/
theorem empty_query_precision_witness :
    wordSet "" = ∅ ∧ (["x"] : List String) ≠ [] ∧
    calculateContextPrecision "" ["x"] = 1 ∧ calculateContextRecall "" ["x"] = 0 :=
  ⟨by decide, by decide,
    (empty_query_precision_one_recall_zero "" ["x"] (by decide) (by decide)).1,
    (empty_query_precision_one_recall_zero "" ["x"] (by decide) (by decide)).2⟩

/-- C1: if the external evaluation-library call raises, `evaluate_with_ragas` still
returns the complete all-0.5 metrics dict, and `collect_rag_metrics` still produces a
complete record carrying those defaults (interpretation included). -/
theorem evaluator_failure_yields_default_record (ts q a : String)
    (docs : List RetrievedDoc) (contexts : List String) :
    evaluateWithRagas (Except.error ()) q a contexts = defaultRagasMetrics ∧
    dictGetD defaultRagasMetrics "faithfulness" 0 = 0.5 ∧
    dictGetD defaultRagasMetrics "answer_relevancy" 0 = 0.5 ∧
    dictGetD defaultRagasMetrics "context_precision" 0 = 0.5 ∧
    dictGetD defaultRagasMetrics "context_recall" 0 = 0.5 ∧
    dictGetD defaultRagasMetrics "ragas_score" 0 = 0.5 ∧
    collectRagMetrics (Except.error ()) ts q a docs =
      { timestamp := ts
        query := q
        ragas_metrics := defaultRagasMetrics
        num_retrieved_docs := docs.length
        context_length := ((docs.map (·.page_content)).map String.length).sum
        interpretation :=
          { overall_quality := "Fair"
            strengths := []
            weaknesses := []
            recommendations := ["Improve answer faithfulness to retrieved context",
              "Improve answer relevancy to the query",
              "Improve context retrieval precision",
              "Improve context retrieval recall"] } } := by
  have hf : dictGetD defaultRagasMetrics "faithfulness" 0 = 0.5 := rfl
  have hr : dictGetD defaultRagasMetrics "answer_relevancy" 0 = 0.5 := rfl
  have hp : dictGetD defaultRagasMetrics "context_precision" 0 = 0.5 := rfl
  have hc : dictGetD defaultRagasMetrics "context_recall" 0 = 0.5 := rfl
  have hs : dictGetD defaultRagasMetrics "ragas_score" 0 = 0.5 := rfl
  have hi : interpretRagasScores defaultRagasMetrics =
      { overall_quality := "Fair"
        strengths := []
        weaknesses := []
        recommendations := ["Improve answer faithfulness to retrieved context",
          "Improve answer relevancy to the query",
          "Improve context retrieval precision",
          "Improve context retrieval recall"] } := by
    unfold interpretRagasScores getRecommendations strengthWeaknessBlock
    rw [hf, hr, hp, hc, hs]
    norm_num
    simp
  refine ⟨rfl, hf, hr, hp, hc, hs, ?_⟩
  unfold collectRagMetrics
  simp only [evaluateWithRagas, hi]

/-- C9: on the collector as constructed by `__init__`, the three model-scored methods
are constant — the `llm` attribute was never set, so the call raises and the bare
`except` substitutes the default on every input. -/
theorem model_scored_methods_constant (answer retrievedContext : String) :
    calculateFaithfulnessScore RAGASMetricsCollector.new answer retrievedContext = 5 ∧
    calculateAnswerAccuracy RAGASMetricsCollector.new answer retrievedContext = 5 ∧
    detectHallucinations RAGASMetricsCollector.new answer retrievedContext = false :=
  ⟨rfl, rfl, rfl⟩

/-- C4: the all-0.9 metrics dict is interpreted as "Excellent" with all four strengths,
no weaknesses and the single continue recommendation; in general the quality tier is
"Excellent" for aggregate ≥ 0.8, "Good" for ≥ 0.6, "Fair" for ≥ 0.4, else "Poor". -/
theorem excellent_interpretation_and_tiers (m : MetricsDict) :
    interpretRagasScores
        [("faithfulness", 0.9), ("answer_relevancy", 0.9), ("context_precision", 0.9),
         ("context_recall", 0.9), ("ragas_score", 0.9)] =
      { overall_quality := "Excellent"
        strengths := ["High faithfulness to context", "High answer relevancy",
          "High context precision", "High context recall"]
        weaknesses := []
        recommendations := ["System performance is good - continue current approach"] } ∧
    (interpretRagasScores m).overall_quality =
      (if (0.8 : ℚ) ≤ dictGetD m "ragas_score" 0 then "Excellent"
       else if (0.6 : ℚ) ≤ dictGetD m "ragas_score" 0 then "Good"
       else if (0.4 : ℚ) ≤ dictGetD m "ragas_score" 0 then "Fair"
       else "Poor") := by
  constructor
  · have hf : dictGetD [("faithfulness", (0.9 : ℚ)), ("answer_relevancy", 0.9),
        ("context_precision", 0.9), ("context_recall", 0.9), ("ragas_score", 0.9)]
        "faithfulness" 0 = 0.9 := rfl
    have hr : dictGetD [("faithfulness", (0.9 : ℚ)), ("answer_relevancy", 0.9),
        ("context_precision", 0.9), ("context_recall", 0.9), ("ragas_score", 0.9)]
        "answer_relevancy" 0 = 0.9 := rfl
    have hp : dictGetD [("faithfulness", (0.9 : ℚ)), ("answer_relevancy", 0.9),
        ("context_precision", 0.9), ("context_recall", 0.9), ("ragas_score", 0.9)]
        "context_precision" 0 = 0.9 := rfl
    have hc : dictGetD [("faithfulness", (0.9 : ℚ)), ("answer_relevancy", 0.9),
        ("context_precision", 0.9), ("context_recall", 0.9), ("ragas_score", 0.9)]
        "context_recall" 0 = 0.9 := rfl
    have hs : dictGetD [("faithfulness", (0.9 : ℚ)), ("answer_relevancy", 0.9),
        ("context_precision", 0.9), ("context_recall", 0.9), ("ragas_score", 0.9)]
        "ragas_score" 0 = 0.9 := rfl
    unfold interpretRagasScores getRecommendations strengthWeaknessBlock
    rw [hf, hr, hp, hc, hs]
    norm_num
  · rfl

/-- C8: `generate_policy` fills the policy prompt with the request fields and the
retrieved passages each truncated to 1200 characters, and its metadata echoes the
request fields and lists the raw metadata of every retrieved source. -/
theorem generate_policy_prompt_and_metadata (retriever : String → List RetrievedDoc)
    (llm : String → String) (request : PolicyGenerationRequest) :
    (generatePolicy retriever llm request).generated_policy =
      llm (policyPrompt request.school request.country request.level
        (match request.requirements with
         | some s => if s = "" then "None specified" else s
         | none => "None specified")
        (String.intercalate ", " (request.scope.getD []))
        (String.intercalate "\n\n"
          ((retriever ("AI policy for " ++ request.level ++ " schools in " ++
            request.country)).map (fun d => d.page_content.take 1200)))) ∧
    (generatePolicy retriever llm request).metadata =
      { school := request.school
        country := request.country
        level := request.level
        requirements := request.requirements
        retrieved_sources :=
          (retriever ("AI policy for " ++ request.level ++ " schools in " ++
            request.country)).map (·.metadata) } :=
  ⟨rfl, rfl⟩

/-- The strengths field is the concatenation of the four strength/weakness blocks. -/
lemma interpret_strengths (m : MetricsDict) :
    (interpretRagasScores m).strengths =
      (strengthWeaknessBlock (dictGetD m "faithfulness" 0)
        "High faithfulness to context" "Low faithfulness to context").1 ++
      (strengthWeaknessBlock (dictGetD m "answer_relevancy" 0)
        "High answer relevancy" "Low answer relevancy").1 ++
      (strengthWeaknessBlock (dictGetD m "context_precision" 0)
        "High context precision" "Low context precision").1 ++
      (strengthWeaknessBlock (dictGetD m "context_recall" 0)
        "High context recall" "Low context recall").1 := rfl

/-- The weaknesses field is the concatenation of the four strength/weakness blocks. -/
lemma interpret_weaknesses (m : MetricsDict) :
    (interpretRagasScores m).weaknesses =
      (strengthWeaknessBlock (dictGetD m "faithfulness" 0)
        "High faithfulness to context" "Low faithfulness to context").2 ++
      (strengthWeaknessBlock (dictGetD m "answer_relevancy" 0)
        "High answer relevancy" "Low answer relevancy").2 ++
      (strengthWeaknessBlock (dictGetD m "context_precision" 0)
        "High context precision" "Low context precision").2 ++
      (strengthWeaknessBlock (dictGetD m "context_recall" 0)
        "High context recall" "Low context recall").2 := rfl

/-- The recommendations field is exactly `_get_recommendations`. -/
lemma interpret_recommendations (m : MetricsDict) :
    (interpretRagasScores m).recommendations = getRecommendations m := rfl

/-- A score ≥ 0.8 contributes its strength message. -/
lemma block_fst_of_ge (score : ℚ) (s w : String) (h : (0.8 : ℚ) ≤ score) :
    (strengthWeaknessBlock score s w).1 = [s] := by
  simp [strengthWeaknessBlock, h]

/-- A score < 0.5 contributes its weakness message. -/
lemma block_snd_of_lt (score : ℚ) (s w : String) (h : score < (0.5 : ℚ)) :
    (strengthWeaknessBlock score s w).2 = [w] := by
  have h8 : ¬ (0.8 : ℚ) ≤ score := by intro h8; linarith
  simp [strengthWeaknessBlock, h8, h]

/-- A block contributes no weakness exactly when the score is not below 0.5. -/
lemma block_snd_nil_iff (score : ℚ) (s w : String) :
    (strengthWeaknessBlock score s w).2 = [] ↔ ¬ score < (0.5 : ℚ) := by
  unfold strengthWeaknessBlock
  split_ifs with h1 h2
  · simp [not_lt]
    linarith
  · simp [h2]
  · simp [h2]

/-- Lemma: `_get_recommendations` collapses to the single continue entry exactly when no
metric is below 0.6. -/
lemma getRecommendations_continue_iff (m : MetricsDict) :
    getRecommendations m =
        ["System performance is good - continue current approach"] ↔
      (¬ dictGetD m "faithfulness" 0 < (0.6 : ℚ) ∧
       ¬ dictGetD m "answer_relevancy" 0 < (0.6 : ℚ) ∧
       ¬ dictGetD m "context_precision" 0 < (0.6 : ℚ) ∧
       ¬ dictGetD m "context_recall" 0 < (0.6 : ℚ)) := by
  by_cases h1 : dictGetD m "faithfulness" 0 < (0.6 : ℚ) <;>
    by_cases h2 : dictGetD m "answer_relevancy" 0 < (0.6 : ℚ) <;>
      by_cases h3 : dictGetD m "context_precision" 0 < (0.6 : ℚ) <;>
        by_cases h4 : dictGetD m "context_recall" 0 < (0.6 : ℚ) <;>
          simp [getRecommendations, h1, h2, h3, h4]

/-- The four-0.55 metrics dict on which the final clause of C2 fails. -/
def midMetrics : MetricsDict :=
  [("faithfulness", 0.55), ("answer_relevancy", 0.55), ("context_precision", 0.55),
   ("context_recall", 0.55), ("ragas_score", 0.55)]

/-- C2 counterexample: with every metric at 0.55 the weaknesses list is empty (no
metric is below 0.5), yet the recommendations are the four improvement entries, not
the single "continue current approach" one — the recommendation cutoff in the code is
0.6, not the weakness cutoff 0.5. -/
theorem weaknesses_empty_but_recommendations_differ :
    (interpretRagasScores midMetrics).weaknesses = [] ∧
    (interpretRagasScores midMetrics).recommendations ≠
      ["System performance is good - continue current approach"] := by
  have hf : dictGetD midMetrics "faithfulness" 0 = 0.55 := rfl
  have hr : dictGetD midMetrics "answer_relevancy" 0 = 0.55 := rfl
  have hp : dictGetD midMetrics "context_precision" 0 = 0.55 := rfl
  have hc : dictGetD midMetrics "context_recall" 0 = 0.55 := rfl
  constructor
  · rw [interpret_weaknesses, hf, hr, hp, hc]
    norm_num [strengthWeaknessBlock]
  · rw [interpret_recommendations]
    intro hEq
    have h := (getRecommendations_continue_iff midMetrics).mp hEq
    rw [hf] at h
    exact h.1 (by norm_num)

/-- C2 (amended): a metric ≥ 0.8 yields its strength entry and a metric < 0.5 yields
its weakness entry; a recommendation is generated per axis below 0.6 (not 0.5), so the
weaknesses list is empty iff every axis is ≥ 0.5, while the recommendations list is
exactly the single "continue current approach" entry iff every axis is ≥ 0.6 — an
axis in [0.5, 0.6) yields a recommendation without a weakness. -/
theorem metric_thresholds_and_recommendations (m : MetricsDict) :
    ((0.8 : ℚ) ≤ dictGetD m "faithfulness" 0 →
      "High faithfulness to context" ∈ (interpretRagasScores m).strengths) ∧
    ((0.8 : ℚ) ≤ dictGetD m "answer_relevancy" 0 →
      "High answer relevancy" ∈ (interpretRagasScores m).strengths) ∧
    ((0.8 : ℚ) ≤ dictGetD m "context_precision" 0 →
      "High context precision" ∈ (interpretRagasScores m).strengths) ∧
    ((0.8 : ℚ) ≤ dictGetD m "context_recall" 0 →
      "High context recall" ∈ (interpretRagasScores m).strengths) ∧
    (dictGetD m "faithfulness" 0 < (0.5 : ℚ) →
      "Low faithfulness to context" ∈ (interpretRagasScores m).weaknesses) ∧
    (dictGetD m "answer_relevancy" 0 < (0.5 : ℚ) →
      "Low answer relevancy" ∈ (interpretRagasScores m).weaknesses) ∧
    (dictGetD m "context_precision" 0 < (0.5 : ℚ) →
      "Low context precision" ∈ (interpretRagasScores m).weaknesses) ∧
    (dictGetD m "context_recall" 0 < (0.5 : ℚ) →
      "Low context recall" ∈ (interpretRagasScores m).weaknesses) ∧
    (dictGetD m "faithfulness" 0 < (0.6 : ℚ) →
      "Improve answer faithfulness to retrieved context" ∈
        (interpretRagasScores m).recommendations) ∧
    (dictGetD m "answer_relevancy" 0 < (0.6 : ℚ) →
      "Improve answer relevancy to the query" ∈
        (interpretRagasScores m).recommendations) ∧
    (dictGetD m "context_precision" 0 < (0.6 : ℚ) →
      "Improve context retrieval precision" ∈
        (interpretRagasScores m).recommendations) ∧
    (dictGetD m "context_recall" 0 < (0.6 : ℚ) →
      "Improve context retrieval recall" ∈
        (interpretRagasScores m).recommendations) ∧
    ((interpretRagasScores m).weaknesses = [] ↔
      ((0.5 : ℚ) ≤ dictGetD m "faithfulness" 0 ∧
       (0.5 : ℚ) ≤ dictGetD m "answer_relevancy" 0 ∧
       (0.5 : ℚ) ≤ dictGetD m "context_precision" 0 ∧
       (0.5 : ℚ) ≤ dictGetD m "context_recall" 0)) ∧
    ((interpretRagasScores m).recommendations =
        ["System performance is good - continue current approach"] ↔
      ((0.6 : ℚ) ≤ dictGetD m "faithfulness" 0 ∧
       (0.6 : ℚ) ≤ dictGetD m "answer_relevancy" 0 ∧
       (0.6 : ℚ) ≤ dictGetD m "context_precision" 0 ∧
       (0.6 : ℚ) ≤ dictGetD m "context_recall" 0)) := by
  refine ⟨?_, ?_, ?_, ?_, ?_, ?_, ?_, ?_, ?_, ?_, ?_, ?_, ?_, ?_⟩
  · intro h
    rw [interpret_strengths, block_fst_of_ge _ _ _ h]
    simp
  · intro h
    rw [interpret_strengths, block_fst_of_ge _ _ _ h]
    simp
  · intro h
    rw [interpret_strengths, block_fst_of_ge _ _ _ h]
    simp
  · intro h
    rw [interpret_strengths, block_fst_of_ge _ _ _ h]
    simp
  · intro h
    rw [interpret_weaknesses, block_snd_of_lt _ _ _ h]
    simp
  · intro h
    rw [interpret_weaknesses, block_snd_of_lt _ _ _ h]
    simp
  · intro h
    rw [interpret_weaknesses, block_snd_of_lt _ _ _ h]
    simp
  · intro h
    rw [interpret_weaknesses, block_snd_of_lt _ _ _ h]
    simp
  · intro h
    rw [interpret_recommendations]
    simp [getRecommendations, h, List.append_eq_nil]
  · intro h
    rw [interpret_recommendations]
    simp [getRecommendations, h, List.append_eq_nil]
  · intro h
    rw [interpret_recommendations]
    simp [getRecommendations, h, List.append_eq_nil]
  · intro h
    rw [interpret_recommendations]
    simp [getRecommendations, h, List.append_eq_nil]
  · rw [interpret_weaknesses]
    simp only [List.append_eq_nil, block_snd_nil_iff, not_lt, and_assoc]
  · rw [interpret_recommendations, getRecommendations_continue_iff]
    simp [not_lt]

/-- The all-0.9 metrics dict used as the high-score witness input. -/
def highMetrics : MetricsDict :=
  [("faithfulness", 0.9), ("answer_relevancy", 0.9), ("context_precision", 0.9),
   ("context_recall", 0.9), ("ragas_score", 0.9)]

/-- The all-0.2 metrics dict used as the low-score witness input. -/
def lowMetrics : MetricsDict :=
  [("faithfulness", 0.2), ("answer_relevancy", 0.2), ("context_precision", 0.2),
   ("context_recall", 0.2), ("ragas_score", 0.2)]

/-- Witness for the amended C2 theorem: every strength implication discharged on the
all-0.9 dict, every weakness and recommendation implication on the all-0.2 dict. -/
theorem metric_thresholds_witness :
    "High faithfulness to context" ∈ (interpretRagasScores highMetrics).strengths ∧
    "High answer relevancy" ∈ (interpretRagasScores highMetrics).strengths ∧
    "High context precision" ∈ (interpretRagasScores highMetrics).strengths ∧
    "High context recall" ∈ (interpretRagasScores highMetrics).strengths ∧
    "Low faithfulness to context" ∈ (interpretRagasScores lowMetrics).weaknesses ∧
    "Low answer relevancy" ∈ (interpretRagasScores lowMetrics).weaknesses ∧
    "Low context precision" ∈ (interpretRagasScores lowMetrics).weaknesses ∧
    "Low context recall" ∈ (interpretRagasScores lowMetrics).weaknesses ∧
    "Improve answer faithfulness to retrieved context" ∈
      (interpretRagasScores lowMetrics).recommendations ∧
    "Improve answer relevancy to the query" ∈
      (interpretRagasScores lowMetrics).recommendations ∧
    "Improve context retrieval precision" ∈
      (interpretRagasScores lowMetrics).recommendations ∧
    "Improve context retrieval recall" ∈
      (interpretRagasScores lowMetrics).recommendations := by
  have hH := metric_thresholds_and_recommendations highMetrics
  have hL := metric_thresholds_and_recommendations lowMetrics
  refine ⟨hH.1 ?_, hH.2.1 ?_, hH.2.2.1 ?_, hH.2.2.2.1 ?_,
    hL.2.2.2.2.1 ?_, hL.2.2.2.2.2.1 ?_, hL.2.2.2.2.2.2.1 ?_, hL.2.2.2.2.2.2.2.1 ?_,
    hL.2.2.2.2.2.2.2.2.1 ?_, hL.2.2.2.2.2.2.2.2.2.1 ?_,
    hL.2.2.2.2.2.2.2.2.2.2.1 ?_, hL.2.2.2.2.2.2.2.2.2.2.2.1 ?_⟩
  · norm_num [show dictGetD highMetrics "faithfulness" 0 = 0.9 from rfl]
  · norm_num [show dictGetD highMetrics "answer_relevancy" 0 = 0.9 from rfl]
  · norm_num [show dictGetD highMetrics "context_precision" 0 = 0.9 from rfl]
  · norm_num [show dictGetD highMetrics "context_recall" 0 = 0.9 from rfl]
  · norm_num [show dictGetD lowMetrics "faithfulness" 0 = 0.2 from rfl]
  · norm_num [show dictGetD lowMetrics "answer_relevancy" 0 = 0.2 from rfl]
  · norm_num [show dictGetD lowMetrics "context_precision" 0 = 0.2 from rfl]
  · norm_num [show dictGetD lowMetrics "context_recall" 0 = 0.2 from rfl]
  · norm_num [show dictGetD lowMetrics "faithfulness" 0 = 0.2 from rfl]
  · norm_num [show dictGetD lowMetrics "answer_relevancy" 0 = 0.2 from rfl]
  · norm_num [show dictGetD lowMetrics "context_precision" 0 = 0.2 from rfl]
  · norm_num [show dictGetD lowMetrics "context_recall" 0 = 0.2 from rfl]

/-- What the claim says `rewrite_question_with_history` does on a non-empty history:
render EVERY one of the last 6 turns (REFINEMENT TARGET, written from the words of
the claim, to be compared with `rewriteQuestionWithHistory`, which filters turns). -/
def rewriteClaimedRendering (question : String) (h : List ChatTurn) : String :=
  "[Follow-up based on: " ++
    String.intercalate " | "
      ((h.drop (h.length - 6)).map (fun msg => msg.role ++ ": " ++ msg.content)) ++
  "] " ++ question

/-- C6 counterexample: a last turn with role "user" but empty content is dropped by
the code, not rendered as "user: " as the rendering clause of the claim demands. -/
theorem rewrite_render_all_turns_refuted :
    rewriteQuestionWithHistory "q" (some [⟨"user", ""⟩]) ≠
      rewriteClaimedRendering "q" [⟨"user", ""⟩] := by
  decide

/-- C6 (amended): on a non-empty history the result is the bracketed hint block —
rendering only the last-6 turns with role user/assistant and non-empty content —
prepended to the query, so the returned string always ends with the query exactly. -/
theorem rewrite_prepends_hint_and_preserves_query (q : String) (h : List ChatTurn)
    (hne : h ≠ []) :
    rewriteQuestionWithHistory q (some h) =
      "[Follow-up based on: " ++
        String.intercalate " | " ((h.drop (h.length - 6)).filterMap (fun msg =>
          if (msg.role = "user" ∨ msg.role = "assistant") ∧ msg.content ≠ "" then
            some (msg.role ++ ": " ++ msg.content)
          else none)) ++ "] " ++ q ∧
    ∃ p, rewriteQuestionWithHistory q (some h) = p ++ q := by
  have heq : rewriteQuestionWithHistory q (some h) =
      "[Follow-up based on: " ++
        String.intercalate " | " ((h.drop (h.length - 6)).filterMap (fun msg =>
          if (msg.role = "user" ∨ msg.role = "assistant") ∧ msg.content ≠ "" then
            some (msg.role ++ ": " ++ msg.content)
          else none)) ++ "] " ++ q := by
    simp only [rewriteQuestionWithHistory]
    rw [if_neg hne]
  exact ⟨heq, ⟨_, heq⟩⟩

/-- Witness for the amended C6 theorem at a concrete non-empty history. -/
theorem rewrite_prepends_hint_witness :
    ([(⟨"user", "hi"⟩ : ChatTurn)] ≠ []) ∧
    (rewriteQuestionWithHistory "a" (some [⟨"user", "hi"⟩]) =
      "[Follow-up based on: " ++
        String.intercalate " | " ((([(⟨"user", "hi"⟩ : ChatTurn)]).drop
            (([(⟨"user", "hi"⟩ : ChatTurn)]).length - 6)).filterMap (fun msg =>
          if (msg.role = "user" ∨ msg.role = "assistant") ∧ msg.content ≠ "" then
            some (msg.role ++ ": " ++ msg.content)
          else none)) ++ "] " ++ "a" ∧
     ∃ p, rewriteQuestionWithHistory "a" (some [⟨"user", "hi"⟩]) = p ++ "a") :=
  ⟨by decide, rewrite_prepends_hint_and_preserves_query "a" [⟨"user", "hi"⟩] (by decide)⟩

end AIPolicy
